import Mathlib

/-!
Shallow embedding of the agent execution core of the `nerve` repository
(`src/agent/state/mod.rs`, `src/agent/generator/openai_compatible.rs`,
`src/agent/namespaces/http/mod.rs`), together with proofs of the spec's
claims about it.

Rust `Result<T>` is embedded as `Except Err T`, where `Err.msg` carries an
`anyhow!` error message and `Err.panic` marks a panic reached through
`Option::unwrap` on `None` (a panic is not a returned error in Rust; the
distinct constructor keeps the two observably different).  Mutable state is
passed explicitly: a `&mut self` method becomes a function returning a pair
of result and updated state.
-/

namespace Nerve

/-- Outcome of a fallible Rust computation: an `anyhow` error message or a
panic (from `unwrap` on `None`). -/
inductive Err where
  | msg (s : String)
  | panic
  deriving DecidableEq, Repr

/-- Embedding of `anyhow::Result<α>`, with panics made explicit. -/
abbrev Res (α : Type) := Except Err α

/-- Storage kind, from `StorageType` (`state/storage.rs`, used at
`state/mod.rs:112` and `namespaces/http/mod.rs:214`): a storage is either a
tagged key→value map or an untagged single-slot value. -/
inductive StorageType where
  | tagged
  | untagged
  deriving DecidableEq, Repr

/-- Modelled from the spec: the `Storage` value type of `state/storage.rs`
(not under `src/`): "tagged storages are key→value mappings pre-seedable
with defaults; untagged storages hold one current value" (§6).  Only the
operations invoked from the files under `src/` are given
(`set_current`, `clear`, `add_tagged`, `iter`). -/
structure Storage where
  name : String
  type_ : StorageType
  entries : List (String × String)
  current : Option String
  deriving DecidableEq, Repr

/-- `Storage::new(name, type_, events_tx)` (`state/mod.rs:112`): a fresh,
empty storage.  The event channel does not affect the data model. -/
def Storage.new (name : String) (t : StorageType) : Storage :=
  { name := name, type_ := t, entries := [], current := none }

/-- `Storage::set_current` (`state/mod.rs:122`): sets the single-slot value. -/
def Storage.set_current (s : Storage) (v : String) : Storage :=
  { s with current := some v }

/-- `Storage::add_tagged` (`namespaces/http/mod.rs:79`): upserts one
key→value entry. -/
def Storage.add_tagged (s : Storage) (k v : String) : Storage :=
  { s with entries := (s.entries.filter (fun e => e.1 ≠ k)) ++ [(k, v)] }

/-- `Storage::clear` (`namespaces/http/mod.rs:35`): removes all entries. -/
def Storage.clear (s : Storage) : Storage :=
  { s with entries := [], current := none }

/-- `StorageDescriptor` (`namespaces/mod.rs`, used at
`namespaces/http/mod.rs:214` and `state/mod.rs:107`): a namespace's
declared storage requirement. -/
structure StorageDescriptor where
  name : String
  type_ : StorageType
  predefined : List (String × String)
  deriving DecidableEq, Repr

/-- `StorageDescriptor::tagged(name)` (`namespaces/http/mod.rs:214`). -/
def StorageDescriptor.tagged (name : String) : StorageDescriptor :=
  { name := name, type_ := .tagged, predefined := [] }

/-- `StorageDescriptor::predefine` (`namespaces/http/mod.rs:214`). -/
def StorageDescriptor.predefine (d : StorageDescriptor)
    (vs : List (String × String)) : StorageDescriptor :=
  { d with predefined := vs }

/-- The static contract of one action (`Action` trait of
`namespaces/mod.rs`): name, description, optional example attributes and
payload, optional required variables, optional timeout.  The asynchronous
`run` bodies of the http actions are embedded separately below as explicit
state-passing functions. -/
structure Action where
  name : String
  description : String
  example_attributes : Option (List (String × String)) := none
  example_payload : Option String := none
  required_variables : Option (List String) := none
  timeoutSecs : Option Nat := none
  deriving DecidableEq, Repr

/-- `Namespace` (`namespaces/mod.rs`): a named, described group of actions
plus optional storage requirements, flagged default-or-not. -/
structure Namespace where
  name : String
  description : String
  actions : List Action
  storages : Option (List StorageDescriptor)
  default : Bool
  deriving DecidableEq, Repr

/-- `Namespace::new_non_default` (`namespaces/http/mod.rs:205`). -/
def Namespace.new_non_default (name description : String)
    (actions : List Action) (storages : Option (List StorageDescriptor)) :
    Namespace :=
  { name := name, description := description, actions := actions,
    storages := storages, default := false }

/-- The process-wide registry `namespaces::NAMESPACES` (`namespaces/mod.rs`,
iterated at `state/mod.rs:60,70,79,94`): an insertion-ordered mapping from
namespace name to a factory producing a fresh `Namespace` value.  In the
pure embedding a factory is just its produced value, and the map is an
ordered association list; `values()` iterates in list order and `get` finds
the first entry with the given key. -/
abbrev Registry := List (String × Namespace)

/-- `NAMESPACES.get(name)` (`state/mod.rs:70`). -/
def lookupNamespace (registry : Registry) (name : String) : Option Namespace :=
  (registry.find? (fun p => p.1 = name)).map Prod.snd

/-- The namespaces produced by iterating `NAMESPACES.values()` and keeping
those with `default` set (`state/mod.rs:60-65` and `79-84`). -/
def defaultNamespaces (registry : Registry) : List Namespace :=
  (registry.map Prod.snd).filter (fun ns => ns.default)

/-- Lookup that fails like `state/mod.rs:70-75`: an unknown name yields
`Err(anyhow!("no namespace '{}' defined", used_ns_name))`. -/
def lookupNamespaceE (registry : Registry) (name : String) :
    Except String Namespace :=
  match lookupNamespace registry name with
  | some ns => .ok ns
  | none => .error ("no namespace '" ++ name ++ "' defined")

/-- The explicit-name loop of `State::new` (`state/mod.rs:68-76`): resolve
every name through the registry in order, pushing the produced namespaces;
the first unknown name aborts with `no namespace '<name>' defined`. -/
def resolveAll (registry : Registry) :
    List String → Except String (List Namespace)
  | [] => .ok []
  | n :: rest =>
    match lookupNamespace registry n with
    | some ns => (resolveAll registry rest).map (fun tail => ns :: tail)
    | none => .error ("no namespace '" ++ n ++ "' defined")

/-- The namespace-resolution block of `State::new` (`state/mod.rs:52-85`):
if `task.namespaces()` is `Some(using)`, the first `"*"` (if any) is removed
and all default registry namespaces are pushed, then every remaining name is
resolved through the registry in order; if it is `None`, all default
namespaces are used.  `List.erase` removes exactly the first occurrence,
matching `using.remove(wild_card_idx)` at the first `position` of `"*"`. -/
def resolveNamespaces (registry : Registry) :
    Option (List String) → Except String (List Namespace)
  | some using_ =>
    if "*" ∈ using_ then
      (resolveAll registry (using_.erase "*")).map
        (fun rest => defaultNamespaces registry ++ rest)
    else
      resolveAll registry using_
  | none => .ok (defaultNamespaces registry)

/-- Events sent through the outbound channel (`events.rs`, not under
`src/`); only the variant emitted from `src/` code is needed, the rest are
collapsed into `other`. -/
inductive Event where
  | taskComplete (impossible : Bool) (reason : Option String)
  | other
  deriving DecidableEq, Repr

/-- A parsed request to execute one named action (`Invocation`,
`agent/mod.rs`): action name, optional attributes, optional payload. -/
structure Invocation where
  action : String
  attributes : Option (List (String × String))
  payload : Option String
  deriving DecidableEq, Repr

/-- One step's record (`Execution`, `state/history.rs`, not under `src/`;
shape from the spec's data model §3: success, error, or unparsable
response). -/
inductive Execution where
  | withResult (invocation : Invocation) (result : Option String)
  | withError (invocation : Invocation) (error : String)
  | withUnparsedResponse (response : String) (error : String)
  deriving DecidableEq, Repr

/-- A chat message produced when rendering History
(`generator::Message`). -/
inductive Message where
  | agent (content : String)
  | feedback (content : String)
  deriving DecidableEq, Repr

/-- Modelled from the spec: the rendering of one `Execution` into its
ordered message pair (§4.4, §3) — `Execution` and its rendering live in
`state/history.rs`, which is not under `src/`.  The exact message text is
immaterial to every claim; what matters is that each Execution renders to a
fixed message list depending only on the Execution. -/
def Execution.render : Execution → List Message
  | .withResult inv result => [.agent inv.action, .feedback (result.getD "")]
  | .withError inv error => [.agent inv.action, .feedback error]
  | .withUnparsedResponse response error => [.agent response, .feedback error]

/-- The rendering of a whole Execution sequence, oldest first. -/
def renderExecutions (es : List Execution) : List Message :=
  es.flatMap Execution.render

/-- Modelled from the spec: `History::to_chat_history(max)`
(`state/history.rs`, not under `src/`): "returns the most recent `max`
Executions rendered as ordered message pairs, in chronological order
(oldest of the selected window first)" (§4.1); History is the append-only
list of Executions, newest last.  The window is taken from the newest end
(`reverse`, keep `max`, `reverse` restores chronological order). -/
def historyToChatHistory (history : List Execution) (max : Nat) :
    List Message :=
  renderExecutions ((history.reverse.take max).reverse)

/-- Step metrics (`state/metrics.rs`, not under `src/`; fields are those
used at `state/mod.rs:125-128,142-144`).  Per the spec (§4.1 construction
step 6) and Rust's derived `Default` for numeric fields, the counter starts
at zero. -/
structure Metrics where
  max_steps : Nat
  current_step : Nat
  deriving DecidableEq, Repr

/-- The retrieval configuration a task may supply
(`task.get_rag_config()`); its contents never matter to the core, only its
presence. -/
structure RagConfig where
  dataPath : String
  deriving DecidableEq, Repr

/-- A retrieved document. -/
abbrev Document := String

/-- Modelled from the spec: the retrieval collaborator's store
(`mini_rag::VectorStore`, not under `src/`).  §6 specifies only its query
interface — `retrieve(query, top_k) → ordered list of (document, score)` —
so the store is embedded as its scoring function from a query to the
scored documents; relevance scores are embedded as rationals. -/
structure VectorStore where
  scored : String → List (Document × ℚ)

/-- Insert one scored document into a list sorted by non-increasing
score, keeping it sorted. -/
def insertByScoreDesc (x : Document × ℚ) :
    List (Document × ℚ) → List (Document × ℚ)
  | [] => [x]
  | y :: ys => if y.2 ≤ x.2 then x :: y :: ys else y :: insertByScoreDesc x ys

/-- Sort scored documents by non-increasing score (insertion sort). -/
def sortByScoreDesc : List (Document × ℚ) → List (Document × ℚ)
  | [] => []
  | x :: xs => insertByScoreDesc x (sortByScoreDesc xs)

/-- Modelled from the spec: `VectorStore::retrieve(query, top_k)`
(`mini_rag`, not under `src/`): returns "up to `top_k` documents ranked by
descending relevance score" (§4.1, §6). -/
def VectorStore.retrieve (vs : VectorStore) (query : String) (top_k : Nat) :
    Res (List (Document × ℚ)) :=
  .ok ((sortByScoreDesc (vs.scored query)).take top_k)

/-- The `Task` collaborator (`task.rs`, interface per §6 and its uses in
`state/mod.rs`): initial prompt (fallible, `to_prompt()` returns a
`Result`), optional namespace-name list, extra task-defined namespaces
(`get_functions()`), optional retrieval configuration, and the defined
task variables consulted by `get_variable` (§4.2, §6). -/
structure Task where
  to_prompt : Except String String
  namespaces? : Option (List String)
  functions : List Namespace
  rag_config? : Option RagConfig
  defined_variables : List (String × String)

/-- The storages map owned by State (`HashMap<String, Storage>`),
embedded as an association list with unique keys; lookup ignores order, so
the hash map's arbitrary iteration order is immaterial to the claims. -/
abbrev Storages := List (String × Storage)

/-- `storages.get(name)` / `get_mut(name)`. -/
def lookupStorage (storages : Storages) (name : String) : Option Storage :=
  (storages.find? (fun p => p.1 = name)).map Prod.snd

/-- Replace the storage stored under `name` by `f` of it (the effect of
mutating through `get_mut`); keys are unchanged. -/
def modifyStorage (storages : Storages) (name : String)
    (f : Storage → Storage) : Storages :=
  storages.map (fun p => if p.1 = name then (p.1, f p.2) else p)

/-- One iteration of the storage-creation loop of `State::new`
(`state/mod.rs:107-115`): create the storage under its name unless already
present (first declaration wins). -/
def addStorage (acc : Storages) (d : StorageDescriptor) : Storages :=
  if (lookupStorage acc d.name).isSome then acc
  else acc ++ [(d.name, Storage.new d.name d.type_)]

/-- A namespace's declared storage requirements (`namespace.storages`,
`state/mod.rs:106`), empty when `None`. -/
def nsDescriptors (ns : Namespace) : List StorageDescriptor :=
  ns.storages.getD []

/-- The storage-creation loop of `State::new` (`state/mod.rs:104-117`):
for every active namespace's declared storages, create each under its name
if not already present. -/
def buildStorages (nss : List Namespace) : Storages :=
  nss.foldl (fun acc ns => (nsDescriptors ns).foldl addStorage acc) []

/-- The RAG block of `State::new` (`state/mod.rs:87-99`): when the task
supplies a retrieval configuration, construct the vector store and import
new documents (both fallible, collapsed into the `mkStore` parameter since
`mini_rag` is not under `src/`), then push the `"rag"` registry namespace —
`NAMESPACES.get("rag").unwrap()` panics if the registry lacks it. -/
def ragSetup (registry : Registry)
    (mkStore : RagConfig → Except String VectorStore) :
    Option RagConfig → Res (Option VectorStore × List Namespace)
  | none => .ok (none, [])
  | some config =>
    match mkStore config with
    | .error e => .error (.msg e)
    | .ok v_store =>
      match lookupNamespace registry "rag" with
      | some ragNs => .ok (some v_store, [ragNs])
      | none => .error .panic

/-- The goal-seeding block of `State::new` (`state/mod.rs:119-123`): if a
`"goal"` storage exists, set its current value from `task.to_prompt()?`. -/
def seedGoal (task : Task) (storages : Storages) : Res Storages :=
  match lookupStorage storages "goal" with
  | none => .ok storages
  | some _ =>
    match task.to_prompt with
    | .error e => .error (.msg e)
    | .ok prompt =>
      .ok (modifyStorage storages "goal" (fun g => g.set_current prompt))

/-- The shared execution context (`State`, `state/mod.rs:20-37`).  The
event channel `events_tx` is embedded by whether its receiver is still
alive (`sinkAlive`), which is what decides whether `send` succeeds; the
task-variable table consulted by `get_variable` is carried directly. -/
structure State where
  task : Task
  storages : Storages
  namespaces : List Namespace
  history : List Execution
  rag : Option VectorStore
  complete : Bool
  sinkAlive : Bool
  metrics : Metrics

/-- `State::new` (`state/mod.rs:42-140`): resolve the active namespaces
from the task, set up retrieval, append task-defined namespaces, create
declared storages (first declaration wins), seed the goal storage, and
initialise metrics with the given budget and a zero step counter. -/
def State.new (registry : Registry)
    (mkStore : RagConfig → Except String VectorStore) (sinkAlive : Bool)
    (task : Task) (max_iterations : Nat) : Res State :=
  match resolveNamespaces registry task.namespaces? with
  | .error e => .error (.msg e)
  | .ok base =>
    match ragSetup registry mkStore task.rag_config? with
    | .error e => .error e
    | .ok (rag?, ragNss) =>
      let nss := base ++ ragNss ++ task.functions
      match seedGoal task (buildStorages nss) with
      | .error e => .error e
      | .ok storages =>
        .ok { task := task, storages := storages, namespaces := nss,
              history := [], rag := rag?, complete := false,
              sinkAlive := sinkAlive,
              metrics := { max_steps := max_iterations, current_step := 0 } }

/-- `State::on_step` (`state/mod.rs:142-149`): increment the step counter,
then fail once a positive budget is reached. -/
def State.on_step (s : State) : Res Unit × State :=
  let m := { s.metrics with current_step := s.metrics.current_step + 1 }
  let s' := { s with metrics := m }
  ((if m.max_steps > 0 ∧ m.current_step ≥ m.max_steps then
      .error (.msg "maximum number of steps reached")
    else .ok ()), s')

/-- `State::rag_query` (`state/mod.rs:151-161`): delegate to the vector
store, or fail when none was configured.  (`&mut self` in Rust, but the
body never writes, so the state is unchanged.) -/
def State.rag_query (s : State) (query : String) (top_k : Nat) :
    Res (List (Document × ℚ)) :=
  match s.rag with
  | some rag => rag.retrieve query top_k
  | none => .error (.msg "no RAG engine has been configured")

/-- `State::to_chat_history` (`state/mod.rs:163-165`): delegate to the
History's rendering (`&self`: cannot mutate). -/
def State.to_chat_history (s : State) (max : Nat) : List Message :=
  historyToChatHistory s.history max

/-- `State::get_storage` (`state/mod.rs:176-182`). -/
def State.get_storage (s : State) (name : String) : Res Storage :=
  match lookupStorage s.storages name with
  | some storage => .ok storage
  | none => .error (.msg ("storage " ++ name ++ " not found"))

/-- `State::get_storage_mut` (`state/mod.rs:184-190`): same lookup; the
returned state is what the map is after the call itself (`get_mut` never
inserts). -/
def State.get_storage_mut (s : State) (name : String) : Res Storage × State :=
  (s.get_storage name, s)

/-- `State::is_complete` (`state/mod.rs:196-198`). -/
def State.is_complete (s : State) : Bool :=
  s.complete

/-- `State::add_success_to_history` (`state/mod.rs:204-207`). -/
def State.add_success_to_history (s : State) (invocation : Invocation)
    (result : Option String) : State :=
  { s with history := s.history ++ [Execution.withResult invocation result] }

/-- `State::add_error_to_history` (`state/mod.rs:209-211`). -/
def State.add_error_to_history (s : State) (invocation : Invocation)
    (error : String) : State :=
  { s with history := s.history ++ [Execution.withError invocation error] }

/-- `State::add_unparsed_response_to_history` (`state/mod.rs:213-216`). -/
def State.add_unparsed_response_to_history (s : State) (response : String)
    (error : String) : State :=
  { s with history :=
      s.history ++ [Execution.withUnparsedResponse response error] }

/-- The inner loop of `State::get_action` over one namespace's actions
(`state/mod.rs:220-224`): first action whose name matches. -/
def findActionIn (actions : List Action) (name : String) : Option Action :=
  actions.find? (fun action => name = action.name)

/-- `State::get_action` (`state/mod.rs:218-228`): scan namespaces in order
and each namespace's actions in order; return the first action whose name
matches, `none` if no match. -/
def getActionFrom (nss : List Namespace) (name : String) : Option Action :=
  match nss with
  | [] => none
  | group :: rest =>
    match findActionIn group.actions name with
    | some action => some action
    | none => getActionFrom rest name

/-- `State::get_action` on a State. -/
def State.get_action (s : State) (name : String) : Option Action :=
  getActionFrom s.namespaces name

/-- `State::on_event` (`state/mod.rs:235-237`): forward to the outbound
channel; `send` fails exactly when the receiver is gone (tokio unbounded
channel semantics, per §4.1: "fails if the sink is unreachable (e.g.,
receiver dropped)"). -/
def State.on_event (s : State) (_event : Event) : Res Unit :=
  if s.sinkAlive then .ok () else .error (.msg "channel closed")

/-- `State::on_complete` (`state/mod.rs:230-233`): set the completion flag,
then emit the `TaskComplete` event. -/
def State.on_complete (s : State) (impossible : Bool)
    (reason : Option String) : Res Unit × State :=
  let s' := { s with complete := true }
  (s'.on_event (Event.taskComplete impossible reason), s')

/-- `State::get_variable` (task-variable lookup used at
`namespaces/http/mod.rs:92`; its definition is not under `src/`, modelled
from §4.2/§6: a name resolves iff it is a defined task variable). -/
def State.get_variable (s : State) (name : String) : Option String :=
  (s.task.defined_variables.find? (fun p => p.1 = name)).map Prod.snd

/-- The wrapped fuller adapter (`super::openai::OpenAIClient`,
`generator/openai.rs`, not under `src/`).  Only what the shim observably
fixes is carried: the api key and base url handed to
`custom_no_auth`; its behaviours (`chat`, `check_native_tools_support`,
`embed`) stay abstract and appear as function parameters of the shim's
forwarding operations below. -/
structure OpenAIClient where
  api_key : String
  base_url : String
  deriving DecidableEq, Repr

/-- `OpenAIClient::custom_no_auth(api_key, url)` (called at
`generator/openai_compatible.rs:18`): a client on the given base url with
the given (here empty) api key and no authentication. -/
def OpenAIClient.custom_no_auth (api_key url : String) : OpenAIClient :=
  { api_key := api_key, base_url := url }

/-- `OpenAiCompatibleClient` (`generator/openai_compatible.rs:8-10`): a
shim holding the wrapped client. -/
structure OpenAiCompatibleClient where
  client : OpenAIClient
  deriving DecidableEq, Repr

/-- `model_name.ends_with("/")` (`generator/openai_compatible.rs:23`):
whether the string's final character is a slash. -/
def ends_with_slash (s : String) : Bool :=
  match s.data.getLast? with
  | some c => c = '/'
  | none => false

/-- `Client::new` for the shim (`generator/openai_compatible.rs:14-31`):
ignores url, port and context size, and builds the wrapped client with an
empty api key on base url `http://{model_name}{/?}`, the trailing slash
added exactly when `model_name` does not already end with `"/"`. -/
def OpenAiCompatibleClient.new (_url : String) (_port : Nat)
    (model_name : String) (_context_window : Nat) : OpenAiCompatibleClient :=
  { client :=
      OpenAIClient.custom_no_auth ""
        ("http://" ++ model_name ++
          (if ends_with_slash model_name then "" else "/")) }

/-- `OpenAiCompatibleClient::chat` (`generator/openai_compatible.rs:37-43`):
forward to the wrapped client's `chat`, whose behaviour (some function of
the wrapped client, the state and the options) is the parameter
`oaiChat`. -/
def OpenAiCompatibleClient.chat {χ ρ : Type}
    (oaiChat : OpenAIClient → State → χ → Res ρ)
    (c : OpenAiCompatibleClient) (state : State) (options : χ) : Res ρ :=
  oaiChat c.client state options

/-- `OpenAiCompatibleClient::check_native_tools_support`
(`generator/openai_compatible.rs:33-35`): forward to the wrapped
client. -/
def OpenAiCompatibleClient.check_native_tools_support
    (oaiCheck : OpenAIClient → Res Bool) (c : OpenAiCompatibleClient) :
    Res Bool :=
  oaiCheck c.client

/-- `Embedder::embed` for the shim
(`generator/openai_compatible.rs:47-51`): forward to the wrapped
client. -/
def OpenAiCompatibleClient.embed {ε : Type}
    (oaiEmbed : OpenAIClient → String → Res ε)
    (c : OpenAiCompatibleClient) (text : String) : Res ε :=
  oaiEmbed c.client text

/-- Attribute lookup on an invocation's attribute map
(`attrs.get(...)` at `namespaces/http/mod.rs:72,147`). -/
def lookupAttr (attrs : List (String × String)) (key : String) :
    Option String :=
  (attrs.find? (fun p => p.1 = key)).map Prod.snd

/-- The `http-clear-headers` action contract
(`namespaces/http/mod.rs:16-27`). -/
def clearHeadersAction : Action :=
  { name := "http-clear-headers", description := "<clear-headers.prompt>" }

/-- The `http-set-header` action contract
(`namespaces/http/mod.rs:40-63`): example attributes `name → X-Header`,
example payload `some-value-for-the-header`. -/
def setHeaderAction : Action :=
  { name := "http-set-header", description := "<set-header.prompt>",
    example_attributes := some [("name", "X-Header")],
    example_payload := some "some-value-for-the-header" }

/-- The `http-request` action contract
(`namespaces/http/mod.rs:110-138`): a 30s timeout, example attributes
`method → GET`, example payload `/index.php?id=1`, required variable
`HTTP_TARGET`. -/
def requestAction : Action :=
  { name := "http-request", description := "<request.prompt>",
    example_attributes := some [("method", "GET")],
    example_payload := some "/index.php?id=1",
    required_variables := some ["HTTP_TARGET"],
    timeoutSecs := some 30 }

/-- The predefined http headers (`namespaces/http/mod.rs:200-203`). -/
def predefined_headers : List (String × String) :=
  [("User-Agent",
    "Mozilla/5.0 (Windows NT 10.0; Win64; x64) AppleWebKit/537.36 (KHTML, like Gecko) Chrome/126.0.0.0 Safari/537.36"),
   ("Accept-Encoding", "deflate")]

/-- `http::get_namespace` (`namespaces/http/mod.rs:199-217`): the
non-default `Web` namespace with actions SetHeader, ClearHeaders, Request
(in that declaration order) and one tagged `http-headers` storage
requirement. -/
def http_get_namespace : Namespace :=
  Namespace.new_non_default "Web" "<ns.prompt>"
    [setHeaderAction, clearHeadersAction, requestAction]
    (some [(StorageDescriptor.tagged "http-headers").predefine
      predefined_headers])

/-- `ClearHeaders::run` (`namespaces/http/mod.rs:29-38`): clear the
`http-headers` storage (the `?` surfaces a missing storage as an error). -/
def ClearHeaders.run (state : State)
    (_attrs : Option (List (String × String))) (_payload : Option String) :
    Res (Option String) × State :=
  match lookupStorage state.storages "http-headers" with
  | none => (.error (.msg "storage http-headers not found"), state)
  | some _ =>
    (.ok (some "http headers cleared"),
      { state with
        storages := modifyStorage state.storages "http-headers"
          Storage.clear })

/-- `SetHeader::run` (`namespaces/http/mod.rs:65-82`): `attrs.unwrap()`,
`attrs.get("name").unwrap()` and `payload.unwrap()` in that order — each a
panic on `None` — then add the tagged entry to the `http-headers` storage
(the `?` surfaces a missing storage as an error). -/
def SetHeader.run (state : State)
    (attrs : Option (List (String × String))) (payload : Option String) :
    Res (Option String) × State :=
  match attrs with
  | none => (.error .panic, state)
  | some a =>
    match lookupAttr a "name" with
    | none => (.error .panic, state)
    | some key =>
      match payload with
      | none => (.error .panic, state)
      | some data =>
        match lookupStorage state.storages "http-headers" with
        | none => (.error (.msg "storage http-headers not found"), state)
        | some _ =>
          (.ok (some "header set"),
            { state with
              storages := modifyStorage state.storages "http-headers"
                (fun st => st.add_tagged key data) })

/-- Substring test (`http_target.contains("://")`,
`namespaces/http/mod.rs:99`). -/
def containsStr (s pat : String) : Bool :=
  (s.splitOn pat).length != 1

/-- `Request::create_url_from` (`namespaces/http/mod.rs:89-107`):
`payload.unwrap()` (panic on `None`), then the `HTTP_TARGET` variable must
be defined, a missing scheme is defaulted to `http://`, and the external
`url` crate's parse-and-join (the `parseJoin` parameter, since that crate
is not part of this repository) may fail with a message. -/
def Request.create_url_from
    (parseJoin : String → String → Except String String) (state : State)
    (payload : Option String) : Res String :=
  match payload with
  | none => .error .panic
  | some req_page =>
    match state.get_variable "HTTP_TARGET" with
    | none => .error (.msg "HTTP_TARGET not defined")
    | some val =>
      let http_target :=
        if containsStr val "://" then val else "http://" ++ val
      match parseJoin http_target req_page with
      | .ok u => .ok u
      | .error e => .error (.msg e)

/-- Outcome of `Request::run` up to the network send
(`namespaces/http/mod.rs:140-152`): a panic, a returned error, or reaching
`client.send()` with a parsed method and url (everything from the send on
is network I/O outside the embedding). -/
inductive RequestOutcome where
  | panicked
  | errored (e : String)
  | proceeds (method : String) (url : String)
  deriving DecidableEq, Repr

/-- `Request::run` up to the network send
(`namespaces/http/mod.rs:140-152`): `attrs.unwrap()` and
`attrs.get("method").unwrap()` (each a panic on `None`),
`reqwest::Method::from_str` (the `methodParse` parameter, external crate;
its failure is an error via `?`), `create_url_from` (whose panic and
errors propagate), then the `http-headers` storage lookup (`?`); reaching
the send is `proceeds`. -/
def Request.run_until_send
    (methodParse : String → Except String String)
    (parseJoin : String → String → Except String String) (state : State)
    (attrs : Option (List (String × String))) (payload : Option String) :
    RequestOutcome :=
  match attrs with
  | none => .panicked
  | some a =>
    match lookupAttr a "method" with
    | none => .panicked
    | some mstr =>
      match methodParse mstr with
      | .error e => .errored e
      | .ok method =>
        match Request.create_url_from parseJoin state payload with
        | .error .panic => .panicked
        | .error (.msg e) => .errored e
        | .ok parsed =>
          match lookupStorage state.storages "http-headers" with
          | none => .errored "storage http-headers not found"
          | some _ => .proceeds method parsed

/-- Iterated `on_step`: the state after `n` calls (results discarded). -/
def stepIter (s : State) : Nat → State
  | 0 => s
  | n + 1 => ((stepIter s n).on_step).2

/-- Some active namespace declares a storage named `x`
(the condition under which the construction loop at `state/mod.rs:104-117`
creates it). -/
def namespacesDeclare (nss : List Namespace) (x : String) : Prop :=
  ∃ ns ∈ nss, ∃ d ∈ nsDescriptors ns, d.name = x

instance (nss : List Namespace) (x : String) :
    Decidable (namespacesDeclare nss x) := by
  unfold namespacesDeclare
  infer_instance

/-- One State operation, for stating invariants over everything a caller
can do to a State (`state/mod.rs:142-237`); mutation through the reference
returned by `get_storage_mut` is its own case. -/
inductive StateOp where
  | onStep
  | ragQuery (query : String) (top_k : Nat)
  | toChatHistory (max : Nat)
  | getStorage (name : String)
  | getStorageMut (name : String)
  | mutateStorage (name : String) (f : Storage → Storage)
  | addSuccess (invocation : Invocation) (result : Option String)
  | addError (invocation : Invocation) (error : String)
  | addUnparsed (response : String) (error : String)
  | getAction (name : String)
  | onComplete (impossible : Bool) (reason : Option String)
  | onEvent (event : Event)

/-- A small goal-keeping namespace, as a concrete registry entry for
evaluating the embedding on closed inputs. -/
def demoGoalNs : Namespace :=
  { name := "Goal", description := "goal keeping",
    actions := [{ name := "update-goal", description := "update the goal" }],
    storages := some [{ name := "goal", type_ := .untagged, predefined := [] }],
    default := true }

/-- A concrete retrieval namespace registered under `"rag"`. -/
def demoRagNs : Namespace :=
  { name := "Memories", description := "document search",
    actions := [{ name := "search", description := "search the documents" }],
    storages := none, default := false }

/-- A concrete registry: one default namespace, the http namespace, and the
`"rag"` namespace. -/
def demoRegistry : Registry :=
  [("goal", demoGoalNs), ("http", http_get_namespace), ("rag", demoRagNs)]

/-- A concrete task requesting the wildcard plus the http namespace, with
no retrieval configuration and no extra namespaces. -/
def demoTask : Task :=
  { to_prompt := .ok "demo task", namespaces? := some ["*", "http"],
    functions := [], rag_config? := none,
    defined_variables := [("HTTP_TARGET", "example.com")] }

/-- A concrete vector store scoring three documents. -/
def demoVectorStore : VectorStore :=
  { scored := fun _ => [("doc-a", (1 : ℚ)), ("doc-b", 3), ("doc-c", 2)] }

/-- A concrete store constructor that always succeeds. -/
def demoMkStore : RagConfig → Except String VectorStore :=
  fun _ => .ok demoVectorStore

/-- The State that `State.new demoRegistry demoMkStore true demoTask 3`
produces, written out. -/
def demoState : State :=
  { task := demoTask,
    storages :=
      [("goal", { name := "goal", type_ := .untagged, entries := [],
                  current := some "demo task" }),
       ("http-headers", Storage.new "http-headers" .tagged)],
    namespaces := [demoGoalNs, http_get_namespace],
    history := [], rag := none, complete := false, sinkAlive := true,
    metrics := { max_steps := 3, current_step := 0 } }

/-- The demo task with a retrieval configuration and no namespace list. -/
def demoRagTask : Task :=
  { to_prompt := .ok "demo task", namespaces? := none, functions := [],
    rag_config? := some { dataPath := "data" },
    defined_variables := [("HTTP_TARGET", "example.com")] }

/-- The State that
`State.new demoRegistry demoMkStore true demoRagTask 3` produces. -/
def demoRagState : State :=
  { task := demoRagTask,
    storages :=
      [("goal", { name := "goal", type_ := .untagged, entries := [],
                  current := some "demo task" })],
    namespaces := [demoGoalNs, demoRagNs],
    history := [], rag := some demoVectorStore, complete := false,
    sinkAlive := true, metrics := { max_steps := 3, current_step := 0 } }

/-- The demo state with the event receiver gone. -/
def demoDeadSinkState : State :=
  { demoState with sinkAlive := false }

/-- A concrete four-entry execution log. -/
def demoExecutions : List Execution :=
  [Execution.withUnparsedResponse "raw-1" "parse error",
   Execution.withResult
     { action := "act-2", attributes := none, payload := none }
     (some "ok-2"),
   Execution.withError
     { action := "act-3", attributes := none, payload := none } "err-3",
   Execution.withResult
     { action := "act-4", attributes := none, payload := some "p" } none]

/-- The demo state carrying the four-entry log. -/
def demoHistoryState : State :=
  { demoState with history := demoExecutions }

/-- A namespace whose action deliberately reuses the name `http-request`,
for exercising the scan-order tie-break. -/
def demoShadowNs : Namespace :=
  { name := "Shadow", description := "a shadowing namespace",
    actions := [{ name := "http-request",
                  description := "a different http-request" }],
    storages := none, default := false }

/-- The demo state with the shadowing namespace scanned after the http
namespace. -/
def demoShadowState : State :=
  { demoState with
    namespaces := [demoGoalNs, http_get_namespace, demoShadowNs] }

/-- A concrete stand-in for `reqwest::Method::from_str`: accepts `GET`. -/
def demoMethodParse : String → Except String String :=
  fun m => if m = "GET" then .ok "GET" else .error ("bad method " ++ m)

/-- A concrete stand-in for the url crate's parse-and-join. -/
def demoParseJoin : String → String → Except String String :=
  fun target page => .ok (target ++ page)

/-- The state after one State operation (read-only operations — `&self`
receivers and `rag_query`, whose body never writes — leave it unchanged). -/
def applyOp (s : State) : StateOp → State
  | .onStep => s.on_step.2
  | .ragQuery _ _ => s
  | .toChatHistory _ => s
  | .getStorage _ => s
  | .getStorageMut name => (s.get_storage_mut name).2
  | .mutateStorage name f => { s with storages := modifyStorage s.storages name f }
  | .addSuccess invocation result => s.add_success_to_history invocation result
  | .addError invocation error => s.add_error_to_history invocation error
  | .addUnparsed response error => s.add_unparsed_response_to_history response error
  | .getAction _ => s
  | .onComplete impossible reason => (s.on_complete impossible reason).2
  | .onEvent _ => s

/-! ## Theorems -/

/-- The step budget is untouched by iterated `on_step`. -/
theorem stepIter_max_steps (s : State) (k : Nat) :
    (stepIter s k).metrics.max_steps = s.metrics.max_steps := by
  induction k with
  | zero => rfl
  | succ n ih => simpa [stepIter, State.on_step] using ih

/-- Each `on_step` call advances the counter by exactly one. -/
theorem stepIter_current_step (s : State) (k : Nat) :
    (stepIter s k).metrics.current_step = s.metrics.current_step + k := by
  induction k with
  | zero => rfl
  | succ n ih =>
    simp only [stepIter, State.on_step]
    omega

example :
    ((stepIter demoState 1).on_step).1 = .ok () := by rfl

example :
    ((stepIter demoState 2).on_step).1 =
      .error (.msg "maximum number of steps reached") := by rfl

/-- C1: for a State whose step counter starts at zero with budget `B`, the
`N`-th `on_step` call (1-indexed) succeeds when `B = 0` or `N < B`, and
fails with the maximum-steps condition when `B > 0` and `N ≥ B`. -/
theorem C1_on_step_budget (s : State) (B N : Nat)
    (h0 : s.metrics.current_step = 0) (hB : s.metrics.max_steps = B)
    (h1 : 1 ≤ N) :
    ((B = 0 ∨ N < B) → ((stepIter s (N - 1)).on_step).1 = .ok ())
  ∧ ((0 < B ∧ B ≤ N) → ((stepIter s (N - 1)).on_step).1 =
      .error (.msg "maximum number of steps reached")) := by
  have hmax := stepIter_max_steps s (N - 1)
  have hcur := stepIter_current_step s (N - 1)
  rw [h0, hB] at *
  constructor
  · intro h
    simp only [State.on_step]
    rw [if_neg]
    rw [hmax, hcur]
    omega
  · intro h
    simp only [State.on_step]
    rw [if_pos]
    rw [hmax, hcur]
    omega

/-- C1 witness: with budget 3 from a fresh demo State, the fifth call
fails with the maximum-steps condition. -/
theorem C1_witness :
    ((stepIter demoState 4).on_step).1 =
      .error (.msg "maximum number of steps reached") :=
  (C1_on_step_budget demoState 3 5 rfl rfl (by decide)).2 (by decide)

example : State.new demoRegistry demoMkStore true demoTask 3 = .ok demoState := by rfl

example : State.new demoRegistry demoMkStore true demoRagTask 3 = .ok demoRagState := by rfl

/-- Successful explicit-name resolution produces exactly the namespaces the
registry defines for the requested names. -/
theorem resolveAll_mem (registry : Registry) (names : List String)
    (result : List Namespace) (h : resolveAll registry names = .ok result) :
    ∀ ns, ns ∈ result ↔ ∃ n ∈ names, lookupNamespace registry n = some ns := by
  induction names generalizing result with
  | nil =>
    simp only [resolveAll] at h
    cases h
    simp
  | cons n rest ih =>
    simp only [resolveAll] at h
    cases hl : lookupNamespace registry n with
    | none => rw [hl] at h; exact absurd h (by simp)
    | some ns0 =>
      rw [hl] at h
      cases hr : resolveAll registry rest with
      | error e => rw [hr] at h; exact absurd h (by simp [Except.map])
      | ok tail =>
        rw [hr] at h
        simp only [Except.map] at h
        cases h
        intro ns
        constructor
        · intro hmem
          rcases List.mem_cons.mp hmem with rfl | htail
          · exact ⟨n, List.mem_cons_self n rest, hl⟩
          · rcases (ih tail hr ns).mp htail with ⟨m, hm, hlm⟩
            exact ⟨m, List.mem_cons_of_mem n hm, hlm⟩
        · rintro ⟨m, hm, hlm⟩
          rcases List.mem_cons.mp hm with rfl | hmem
          · rw [hl] at hlm
            cases hlm
            exact List.mem_cons_self _ _
          · exact List.mem_cons_of_mem _ ((ih tail hr ns).mpr ⟨m, hmem, hlm⟩)

/-- If some requested name is undefined, explicit-name resolution fails
with that name's error message. -/
theorem resolveAll_err (registry : Registry) (names : List String)
    (h : ∃ n ∈ names, lookupNamespace registry n = none) :
    ∃ n ∈ names, lookupNamespace registry n = none ∧
      resolveAll registry names =
        .error ("no namespace '" ++ n ++ "' defined") := by
  induction names with
  | nil => simp at h
  | cons n rest ih =>
    cases hl : lookupNamespace registry n with
    | none =>
      refine ⟨n, List.mem_cons_self n rest, hl, ?_⟩
      simp [resolveAll, hl]
    | some ns0 =>
      rcases h with ⟨m, hm, hnone⟩
      rcases List.mem_cons.mp hm with rfl | hmem
      · rw [hl] at hnone; cases hnone
      · rcases ih ⟨m, hmem, hnone⟩ with ⟨n', hn', hnone', herr⟩
        refine ⟨n', List.mem_cons_of_mem n hn', hnone', ?_⟩
        simp [resolveAll, hl, herr, Except.map]

/-- A successfully constructed State is exactly what the construction
pipeline of `State::new` says: resolved base namespaces, retrieval setup,
appended task namespaces, built and goal-seeded storages, empty history,
cleared completion flag, and zeroed metrics with the given budget. -/
theorem State.new_ok_characterisation (registry : Registry)
    (mkStore : RagConfig → Except String VectorStore) (sink : Bool)
    (task : Task) (B : Nat) (s : State)
    (h : State.new registry mkStore sink task B = .ok s) :
    ∃ base ragNss,
      resolveNamespaces registry task.namespaces? = .ok base ∧
      ragSetup registry mkStore task.rag_config? = .ok (s.rag, ragNss) ∧
      s.namespaces = base ++ ragNss ++ task.functions ∧
      seedGoal task (buildStorages s.namespaces) = .ok s.storages ∧
      s.complete = false ∧
      s.metrics = { max_steps := B, current_step := 0 } ∧
      s.task = task ∧ s.history = [] ∧ s.sinkAlive = sink := by
  unfold State.new at h
  cases hres : resolveNamespaces registry task.namespaces? with
  | error e => rw [hres] at h; exact absurd h (by simp)
  | ok base =>
    rw [hres] at h
    cases hrag : ragSetup registry mkStore task.rag_config? with
    | error e => rw [hrag] at h; exact absurd h (by simp)
    | ok pair =>
      obtain ⟨rag?, ragNss⟩ := pair
      rw [hrag] at h
      simp only at h
      cases hseed :
          seedGoal task (buildStorages (base ++ ragNss ++ task.functions)) with
      | error e => rw [hseed] at h; exact absurd h (by simp)
      | ok storages =>
        rw [hseed] at h
        simp only [Except.ok.injEq] at h
        subst h
        exact ⟨base, ragNss, rfl, rfl, rfl, hseed, rfl, rfl, rfl, rfl, rfl⟩

/-- C2: with the wildcard present in the task's namespace list, the
resolved active set is exactly the default registry namespaces together
with the namespaces of the remaining explicit names (the sentinel itself
excluded); an undefined explicit name fails resolution — and hence
construction — with `no namespace '<name>' defined`; with no namespace
list at all, the default namespaces are used.  The final conjunct ties the
resolved set to the namespaces of a constructed State (for a task adding
no retrieval or extra namespaces, which steps 2-3 of construction would
append on top). -/
theorem C2_wildcard_namespaces :
    (∀ registry using_ result, "*" ∈ using_ →
        resolveNamespaces registry (some using_) = .ok result →
        ∀ ns, ns ∈ result ↔ (ns ∈ defaultNamespaces registry ∨
          ∃ n ∈ using_.erase "*", lookupNamespace registry n = some ns))
  ∧ (∀ registry using_, "*" ∈ using_ →
        (∃ n ∈ using_.erase "*", lookupNamespace registry n = none) →
        ∃ n ∈ using_.erase "*",
          resolveNamespaces registry (some using_) =
            .error ("no namespace '" ++ n ++ "' defined"))
  ∧ (∀ registry : Registry,
        resolveNamespaces registry none = .ok (defaultNamespaces registry))
  ∧ (∀ registry mkStore sink task B e,
        resolveNamespaces registry task.namespaces? = .error e →
        State.new registry mkStore sink task B = .error (.msg e))
  ∧ (∀ registry mkStore sink task B s,
        State.new registry mkStore sink task B = .ok s →
        task.rag_config? = none → task.functions = [] →
        resolveNamespaces registry task.namespaces? = .ok s.namespaces) := by
  refine ⟨?_, ?_, ?_, ?_, ?_⟩
  · intro registry using_ result hw hok ns
    simp only [resolveNamespaces, if_pos hw] at hok
    cases hr : resolveAll registry (using_.erase "*") with
    | error e => rw [hr] at hok; exact absurd hok (by simp [Except.map])
    | ok rest =>
      rw [hr] at hok
      simp only [Except.map] at hok
      cases hok
      rw [List.mem_append]
      rcases resolveAll_mem registry _ rest hr ns with hiff
      rw [hiff]
  · intro registry using_ hw hex
    rcases resolveAll_err registry _ hex with ⟨n, hn, hnone, herr⟩
    refine ⟨n, hn, ?_⟩
    simp [resolveNamespaces, if_pos hw, herr, Except.map]
  · intro registry
    rfl
  · intro registry mkStore sink task B e herr
    unfold State.new
    rw [herr]
  · intro registry mkStore sink task B s hok hrag hfun
    rcases State.new_ok_characterisation registry mkStore sink task B s hok
      with ⟨base, ragNss, hres, hragset, hnss, -⟩
    rw [hrag] at hragset
    simp only [ragSetup, Except.ok.injEq, Prod.mk.injEq] at hragset
    rw [hnss, hfun, ← hragset.2]
    simpa using hres

/-- C2 witness: the demo task requests `["*", "http"]`; construction of
the demo State succeeds and its namespace list is the resolution's
output. -/
theorem C2_witness :
    resolveNamespaces demoRegistry demoTask.namespaces? =
      .ok demoState.namespaces :=
  C2_wildcard_namespaces.2.2.2.2 demoRegistry demoMkStore true demoTask 3
    demoState (by rfl) rfl rfl

/-- A storage lookup succeeds exactly when some entry carries the name. -/
theorem lookupStorage_isSome_iff (st : Storages) (x : String) :
    (lookupStorage st x).isSome ↔ ∃ p ∈ st, p.1 = x := by
  simp [lookupStorage]

/-- Creating one declared storage adds exactly its name to the keys. -/
theorem lookupStorage_addStorage (acc : Storages) (d : StorageDescriptor)
    (x : String) :
    (lookupStorage (addStorage acc d) x).isSome ↔
      (lookupStorage acc x).isSome ∨ d.name = x := by
  unfold addStorage
  by_cases h : (lookupStorage acc d.name).isSome
  · rw [if_pos h]
    constructor
    · exact Or.inl
    · rintro (hx | rfl)
      · exact hx
      · exact h
  · rw [if_neg h]
    rw [lookupStorage_isSome_iff, lookupStorage_isSome_iff]
    constructor
    · rintro ⟨p, hp, hx⟩
      rcases List.mem_append.mp hp with hacc | hone
      · exact Or.inl ⟨p, hacc, hx⟩
      · rcases List.mem_singleton.mp hone with rfl
        exact Or.inr hx
    · rintro (⟨p, hp, hx⟩ | rfl)
      · exact ⟨p, List.mem_append_left _ hp, hx⟩
      · exact ⟨(d.name, Storage.new d.name d.type_),
          List.mem_append_right _ (List.mem_singleton.mpr rfl), rfl⟩

/-- The inner descriptor loop creates exactly the declared names. -/
theorem lookupStorage_foldl_addStorage (ds : List StorageDescriptor)
    (acc : Storages) (x : String) :
    (lookupStorage (ds.foldl addStorage acc) x).isSome ↔
      (lookupStorage acc x).isSome ∨ ∃ d ∈ ds, d.name = x := by
  induction ds generalizing acc with
  | nil => simp
  | cons d rest ih =>
    rw [List.foldl_cons, ih, lookupStorage_addStorage]
    simp only [List.mem_cons]
    constructor
    · rintro ((hacc | hd) | ⟨d', hd', hx⟩)
      · exact Or.inl hacc
      · exact Or.inr ⟨d, Or.inl rfl, hd⟩
      · exact Or.inr ⟨d', Or.inr hd', hx⟩
    · rintro (hacc | ⟨d', hd' | hd', hx⟩)
      · exact Or.inl (Or.inl hacc)
      · subst hd'
        exact Or.inl (Or.inr hx)
      · exact Or.inr ⟨d', hd', hx⟩

/-- The construction loop at `state/mod.rs:104-117` creates a storage named
`x` exactly when some active namespace declares one. -/
theorem lookupStorage_buildStorages (nss : List Namespace) (x : String) :
    (lookupStorage (buildStorages nss) x).isSome ↔ namespacesDeclare nss x := by
  unfold buildStorages namespacesDeclare
  suffices h : ∀ acc : Storages,
      (lookupStorage
        (nss.foldl (fun acc ns => (nsDescriptors ns).foldl addStorage acc) acc)
        x).isSome ↔
      (lookupStorage acc x).isSome ∨ ∃ ns ∈ nss, ∃ d ∈ nsDescriptors ns, d.name = x by
    rw [h []]
    simp [lookupStorage]
  intro acc
  induction nss generalizing acc with
  | nil => simp
  | cons ns rest ih =>
    rw [List.foldl_cons, ih, lookupStorage_foldl_addStorage]
    simp only [List.mem_cons]
    constructor
    · rintro ((hacc | hd) | ⟨ns', hns', hd'⟩)
      · exact Or.inl hacc
      · exact Or.inr ⟨ns, Or.inl rfl, hd⟩
      · exact Or.inr ⟨ns', Or.inr hns', hd'⟩
    · rintro (hacc | ⟨ns', hns' | hns', hd'⟩)
      · exact Or.inl (Or.inl hacc)
      · subst hns'
        exact Or.inl (Or.inr hd')
      · exact Or.inr ⟨ns', hns', hd'⟩

/-- Mutating a storage in place never changes which names exist. -/
theorem lookupStorage_modifyStorage (st : Storages) (n : String)
    (f : Storage → Storage) (x : String) :
    (lookupStorage (modifyStorage st n f) x).isSome ↔
      (lookupStorage st x).isSome := by
  have hkey : ∀ q : String × Storage,
      (if q.1 = n then (q.1, f q.2) else q).1 = q.1 := by
    intro q
    split <;> rfl
  rw [lookupStorage_isSome_iff, lookupStorage_isSome_iff]
  unfold modifyStorage
  constructor
  · rintro ⟨p, hp, hx⟩
    rcases List.mem_map.mp hp with ⟨q, hq, rfl⟩
    exact ⟨q, hq, by rw [← hkey q]; exact hx⟩
  · rintro ⟨q, hq, hx⟩
    exact ⟨_, List.mem_map_of_mem _ hq, by rw [hkey q]; exact hx⟩

/-- Goal seeding rewrites a value but never creates or removes a key. -/
theorem seedGoal_isSome (task : Task) (st st' : Storages)
    (h : seedGoal task st = .ok st') (x : String) :
    (lookupStorage st' x).isSome ↔ (lookupStorage st x).isSome := by
  unfold seedGoal at h
  cases hg : lookupStorage st "goal" with
  | none =>
    rw [hg] at h
    cases h
    exact Iff.rfl
  | some g =>
    rw [hg] at h
    cases hp : task.to_prompt with
    | error e => rw [hp] at h; exact absurd h (by simp)
    | ok prompt =>
      rw [hp] at h
      cases h
      exact lookupStorage_modifyStorage st "goal" _ x

/-- C3: on any constructed State, `get_storage x` and `get_storage_mut x`
fail with the storage-not-found condition exactly when no active namespace
declared a storage named `x`, and neither call changes the storages map. -/
theorem C3_storage_not_found (registry : Registry)
    (mkStore : RagConfig → Except String VectorStore) (sink : Bool)
    (task : Task) (B : Nat) (s : State)
    (h : State.new registry mkStore sink task B = .ok s) (x : String) :
    (s.get_storage x = .error (.msg ("storage " ++ x ++ " not found")) ↔
      ¬ namespacesDeclare s.namespaces x)
  ∧ ((s.get_storage_mut x).1 =
        .error (.msg ("storage " ++ x ++ " not found")) ↔
      ¬ namespacesDeclare s.namespaces x)
  ∧ (s.get_storage_mut x).2 = s := by
  rcases State.new_ok_characterisation registry mkStore sink task B s h with
    ⟨base, ragNss, hres, hrag, hnss, hseed, -⟩
  have hkeys : (lookupStorage s.storages x).isSome ↔
      namespacesDeclare s.namespaces x := by
    rw [← lookupStorage_buildStorages]
    exact seedGoal_isSome task _ _ hseed x
  have hmain : s.get_storage x =
      .error (.msg ("storage " ++ x ++ " not found")) ↔
      ¬ namespacesDeclare s.namespaces x := by
    unfold State.get_storage
    cases hl : lookupStorage s.storages x with
    | none =>
      rw [hl] at hkeys
      simp only [Option.isSome_none, Bool.false_eq_true, false_iff] at hkeys
      simpa using hkeys
    | some st =>
      rw [hl] at hkeys
      simp only [Option.isSome_some, true_iff] at hkeys
      simp [hkeys]
  exact ⟨hmain, hmain, rfl⟩

/-- C3 witness: the demo State declares no storage named `notes`, so the
lookup fails with the storage-not-found condition and leaves the State
unchanged. -/
theorem C3_witness :
    (demoState.get_storage "notes" =
        .error (.msg "storage notes not found")) ∧
    (demoState.get_storage_mut "notes").2 = demoState :=
  ⟨(C3_storage_not_found demoRegistry demoMkStore true demoTask 3 demoState
      (by rfl) "notes").1.mpr (by decide),
   (C3_storage_not_found demoRegistry demoMkStore true demoTask 3 demoState
      (by rfl) "notes").2.2⟩

/-- The scan of `get_action` is the first match over the namespaces'
actions flattened in scan order. -/
theorem getActionFrom_eq_find (nss : List Namespace) (name : String) :
    getActionFrom nss name =
      (nss.flatMap Namespace.actions).find? (fun a => name = a.name) := by
  induction nss with
  | nil => rfl
  | cons g rest ih =>
    simp only [getActionFrom, List.flatMap_cons, List.find?_append, ← ih,
      findActionIn]
    cases getActionFrom rest name <;> cases List.find? _ g.actions <;> rfl

/-- A scan finding nothing in an initial segment continues unchanged into
the rest. -/
theorem getActionFrom_append_none (pre rest : List Namespace) (name : String)
    (hpre : getActionFrom pre name = none) :
    getActionFrom (pre ++ rest) name = getActionFrom rest name := by
  induction pre with
  | nil => rfl
  | cons p pre' ih =>
    simp only [getActionFrom, List.cons_append] at hpre ⊢
    cases hf : findActionIn p.actions name with
    | some a => rw [hf] at hpre; exact absurd hpre (by simp)
    | none => rw [hf] at hpre; exact ih hpre

/-- C4: `get_action` returns the first action of the given name in
namespace scan order then declaration order (the flattened first match);
it returns none exactly when no active namespace has an action of that
name; and when an earlier namespace and a later one both define the name,
the earlier namespace's action is returned. -/
theorem C4_get_action_scan_order :
    (∀ (s : State) (name : String),
        s.get_action name =
          (s.namespaces.flatMap Namespace.actions).find?
            (fun a => name = a.name))
  ∧ (∀ (s : State) (name : String),
        s.get_action name = none ↔
          ∀ ns ∈ s.namespaces, ∀ a ∈ ns.actions, name ≠ a.name)
  ∧ (∀ (s : State) (pre : List Namespace) (ns1 : Namespace)
        (mid : List Namespace) (ns2 : Namespace) (post : List Namespace)
        (name : String) (a1 a2 : Action),
        s.namespaces = pre ++ ns1 :: (mid ++ ns2 :: post) →
        getActionFrom pre name = none →
        findActionIn ns1.actions name = some a1 →
        findActionIn ns2.actions name = some a2 →
        s.get_action name = some a1) := by
  refine ⟨?_, ?_, ?_⟩
  · intro s name
    exact getActionFrom_eq_find s.namespaces name
  · intro s name
    rw [State.get_action, getActionFrom_eq_find, List.find?_eq_none]
    constructor
    · intro h ns hns a ha
      have := h a (List.mem_flatMap.mpr ⟨ns, hns, ha⟩)
      simpa using this
    · intro h a ha
      rcases List.mem_flatMap.mp ha with ⟨ns, hns, hmem⟩
      simpa using h ns hns a hmem
  · intro s pre ns1 mid ns2 post name a1 a2 hs hpre h1 h2
    rw [State.get_action, hs, getActionFrom_append_none pre _ name hpre]
    simp only [getActionFrom]
    rw [h1]

/-- C4 witness: with the http namespace scanned before a namespace that
also defines `http-request`, the http namespace's action wins. -/
theorem C4_witness :
    demoShadowState.get_action "http-request" = some requestAction :=
  C4_get_action_scan_order.2.2 demoShadowState [demoGoalNs]
    http_get_namespace [] demoShadowNs [] "http-request" requestAction
    { name := "http-request", description := "a different http-request" }
    rfl rfl rfl rfl

/-- Membership through the sorted insert. -/
theorem mem_insertByScoreDesc (x y : Document × ℚ) (l : List (Document × ℚ)) :
    y ∈ insertByScoreDesc x l ↔ y = x ∨ y ∈ l := by
  induction l with
  | nil => simp [insertByScoreDesc]
  | cons z zs ih =>
    unfold insertByScoreDesc
    split
    · simp [List.mem_cons]
    · simp [List.mem_cons, ih]
      tauto

/-- The sorted insert preserves the non-increasing-score ordering. -/
theorem pairwise_insertByScoreDesc (x : Document × ℚ)
    (l : List (Document × ℚ)) (hl : l.Pairwise (fun a b => b.2 ≤ a.2)) :
    (insertByScoreDesc x l).Pairwise (fun a b => b.2 ≤ a.2) := by
  induction l with
  | nil => simp [insertByScoreDesc]
  | cons z zs ih =>
    rcases List.pairwise_cons.mp hl with ⟨hz, hzs⟩
    unfold insertByScoreDesc
    split
    · rename_i hle
      refine List.pairwise_cons.mpr ⟨?_, hl⟩
      intro b hb
      rcases List.mem_cons.mp hb with rfl | hbzs
      · exact hle
      · exact le_trans (hz b hbzs) hle
    · rename_i hnle
      refine List.pairwise_cons.mpr ⟨?_, ih hzs⟩
      intro b hb
      rcases (mem_insertByScoreDesc x b zs).mp hb with rfl | hbzs
      · exact le_of_not_le hnle
      · exact hz b hbzs

/-- The insertion sort produces a non-increasing-score list. -/
theorem pairwise_sortByScoreDesc (l : List (Document × ℚ)) :
    (sortByScoreDesc l).Pairwise (fun a b => b.2 ≤ a.2) := by
  induction l with
  | nil => simp [sortByScoreDesc]
  | cons x xs ih => exact pairwise_insertByScoreDesc x _ ih

/-- C5: on any constructed State, `rag_query` fails with the
no-RAG-engine condition exactly when the task supplied no retrieval
configuration; a successful query returns at most `top_k` entries sorted
by non-increasing score. -/
theorem C5_rag_query (registry : Registry)
    (mkStore : RagConfig → Except String VectorStore) (sink : Bool)
    (task : Task) (B : Nat) (s : State)
    (h : State.new registry mkStore sink task B = .ok s) (query : String)
    (top_k : Nat) :
    ((s.rag_query query top_k =
        .error (.msg "no RAG engine has been configured")) ↔
      task.rag_config? = none)
  ∧ (∀ res, s.rag_query query top_k = .ok res →
      res.length ≤ top_k ∧ res.Pairwise (fun a b => b.2 ≤ a.2)) := by
  rcases State.new_ok_characterisation registry mkStore sink task B s h with
    ⟨base, ragNss, hres, hrag, -⟩
  constructor
  · cases hcfg : task.rag_config? with
    | none =>
      rw [hcfg] at hrag
      simp only [ragSetup, Except.ok.injEq, Prod.mk.injEq] at hrag
      simp [State.rag_query, ← hrag.1]
    | some cfg =>
      rw [hcfg] at hrag
      simp only [ragSetup] at hrag
      cases hmk : mkStore cfg with
      | error e => rw [hmk] at hrag; exact absurd hrag (by simp)
      | ok vs =>
        rw [hmk] at hrag
        cases hrn : lookupNamespace registry "rag" with
        | none => rw [hrn] at hrag; exact absurd hrag (by simp)
        | some rns =>
          rw [hrn] at hrag
          simp only [Except.ok.injEq, Prod.mk.injEq] at hrag
          simp [State.rag_query, ← hrag.1, VectorStore.retrieve]
  · intro res hok
    cases hsr : s.rag with
    | none =>
      rw [State.rag_query, hsr] at hok
      exact absurd hok (by simp)
    | some vs =>
      rw [State.rag_query, hsr] at hok
      simp only [VectorStore.retrieve, Except.ok.injEq] at hok
      subst hok
      exact ⟨List.length_take_le _ _,
        List.Pairwise.sublist (List.take_sublist _ _)
          (pairwise_sortByScoreDesc _)⟩

/-- C5 witness: the demo retrieval State returns the top two of three
documents, sorted by non-increasing score. -/
theorem C5_witness :
    demoRagState.rag_query "q" 2 = .ok [("doc-b", (3 : ℚ)), ("doc-c", 2)] ∧
    ((2 : Nat) ≤ 2 ∧
      List.Pairwise (fun a b : Document × ℚ => b.2 ≤ a.2)
        [("doc-b", (3 : ℚ)), ("doc-c", 2)]) :=
  ⟨by rfl,
   by
    have hlen :
        [("doc-b", (3 : ℚ)), ("doc-c", 2)].length = 2 := rfl
    have := (C5_rag_query demoRegistry demoMkStore true demoRagTask 3
      demoRagState (by rfl) "q" 2).2 [("doc-b", (3 : ℚ)), ("doc-c", 2)]
      (by rfl)
    simpa [hlen] using this⟩

/-- The newest-`max` window kept in chronological order is the suffix
obtained by dropping from the oldest end. -/
theorem window_eq_drop (l : List Execution) (max : Nat) :
    (l.reverse.take max).reverse = l.drop (l.length - max) := by
  rw [← List.rtake_eq_reverse_take_reverse]
  rfl

/-- C6: on a History of `n` Executions with `max < n`, `to_chat_history`
returns exactly the rendering of the last `max` Executions — the entries
at positions `n-max, …, n-1` in chronological order — and is a pure
function of the stored history and `max`. -/
theorem C6_chat_history_window (s : State) (es : List Execution)
    (n max : Nat) (hes : s.history = es) (hn : es.length = n)
    (hmax : max < n) :
    s.to_chat_history max = renderExecutions (es.drop (n - max))
  ∧ (es.drop (n - max)).length = max
  ∧ (∀ i : Nat, i < max → (es.drop (n - max))[i]? = es[n - max + i]?)
  ∧ s.to_chat_history max = historyToChatHistory s.history max := by
  refine ⟨?_, ?_, ?_, rfl⟩
  · rw [State.to_chat_history, hes, historyToChatHistory, window_eq_drop, hn]
  · rw [List.length_drop, hn]
    omega
  · intro i hi
    rw [List.getElem?_drop]

/-- C6 witness: on the four-entry demo log with window two,
`to_chat_history` renders exactly the last two Executions. -/
theorem C6_witness :
    demoHistoryState.to_chat_history 2 =
      renderExecutions (demoExecutions.drop 2) :=
  (C6_chat_history_window demoHistoryState demoExecutions 4 2 rfl rfl
    (by decide)).1

/-- C7: the completion flag is false at construction, `on_complete` sets
it, and every State operation preserves it once set — completion is
irreversible. -/
theorem C7_completion_irreversible :
    (∀ (registry : Registry)
        (mkStore : RagConfig → Except String VectorStore) (sink : Bool)
        (task : Task) (B : Nat) (s : State),
        State.new registry mkStore sink task B = .ok s →
        s.is_complete = false)
  ∧ (∀ (s : State) (impossible : Bool) (reason : Option String),
        ((s.on_complete impossible reason).2).is_complete = true)
  ∧ (∀ (s : State) (op : StateOp), s.is_complete = true →
        (applyOp s op).is_complete = true) := by
  refine ⟨?_, ?_, ?_⟩
  · intro registry mkStore sink task B s h
    rcases State.new_ok_characterisation registry mkStore sink task B s h
      with ⟨-, -, -, -, -, -, hc, -⟩
    exact hc
  · intro s impossible reason
    rfl
  · intro s op h
    cases op <;> first | exact h | rfl

/-- C7 witness: after completing the demo State, a further `on_step` still
reports completion. -/
theorem C7_witness :
    (applyOp ((demoState.on_complete false (some "done")).2)
      StateOp.onStep).is_complete = true :=
  C7_completion_irreversible.2.2 _ StateOp.onStep
    (C7_completion_irreversible.2.1 demoState false (some "done"))

/-- C10: `on_complete` sets the completion flag before emitting the
TaskComplete event, so even when the sink's receiver is gone — making the
call return an error — the State remains complete. -/
theorem C10_complete_despite_send_failure (s : State) (impossible : Bool)
    (reason : Option String) :
    ((s.on_complete impossible reason).2).complete = true
  ∧ (s.sinkAlive = false →
      (s.on_complete impossible reason).1 = .error (.msg "channel closed")
    ∧ ((s.on_complete impossible reason).2).is_complete = true) := by
  refine ⟨rfl, ?_⟩
  intro hdead
  refine ⟨?_, rfl⟩
  simp [State.on_complete, State.on_event, hdead]

/-- C10 witness: on the dead-sink demo State, `on_complete` errors yet
completion sticks. -/
theorem C10_witness :
    (demoDeadSinkState.on_complete true (some "impossible")).1 =
      .error (.msg "channel closed") ∧
    ((demoDeadSinkState.on_complete true (some "impossible")).2).is_complete
      = true :=
  (C10_complete_despite_send_failure demoDeadSinkState true
    (some "impossible")).2 rfl

/-- C8: the OpenAI-compatible shim builds its wrapped client with no
authentication on base url `http://s/` (the trailing slash added exactly
when `s` does not already end in one), and its chat, native-tools probe
and embed calls forward unchanged to the wrapped client. -/
theorem C8_openai_compatible_shim :
    (∀ url port model_name ctx,
        (OpenAiCompatibleClient.new url port model_name ctx).client =
          OpenAIClient.custom_no_auth ""
            ("http://" ++ model_name ++
              (if ends_with_slash model_name then "" else "/")))
  ∧ (∀ url port model_name ctx, ends_with_slash model_name = false →
        (OpenAiCompatibleClient.new url port model_name ctx).client.base_url
          = "http://" ++ model_name ++ "/")
  ∧ (∀ url port model_name ctx, ends_with_slash model_name = true →
        (OpenAiCompatibleClient.new url port model_name ctx).client.base_url
          = "http://" ++ model_name)
  ∧ (∀ url port model_name ctx,
        (OpenAiCompatibleClient.new url port model_name ctx).client.api_key
          = "")
  ∧ (∀ (χ ρ : Type) (oaiChat : OpenAIClient → State → χ → Res ρ)
        (c : OpenAiCompatibleClient) (state : State) (options : χ),
        OpenAiCompatibleClient.chat oaiChat c state options =
          oaiChat c.client state options)
  ∧ (∀ (oaiCheck : OpenAIClient → Res Bool) (c : OpenAiCompatibleClient),
        OpenAiCompatibleClient.check_native_tools_support oaiCheck c =
          oaiCheck c.client)
  ∧ (∀ (ε : Type) (oaiEmbed : OpenAIClient → String → Res ε)
        (c : OpenAiCompatibleClient) (text : String),
        OpenAiCompatibleClient.embed oaiEmbed c text =
          oaiEmbed c.client text) := by
  refine ⟨?_, ?_, ?_, ?_, ?_, ?_, ?_⟩
  · intro url port model_name ctx
    rfl
  · intro url port model_name ctx h
    simp [OpenAiCompatibleClient.new, OpenAIClient.custom_no_auth, h]
  · intro url port model_name ctx h
    simp [OpenAiCompatibleClient.new, OpenAIClient.custom_no_auth, h]
  · intro url port model_name ctx
    rfl
  · intro χ ρ oaiChat c state options
    rfl
  · intro oaiCheck c
    rfl
  · intro ε oaiEmbed c text
    rfl

/-- C8 witness: a bare host:port gains scheme and trailing slash. -/
theorem C8_witness :
    (OpenAiCompatibleClient.new "" 0 "localhost:11434" 0).client.base_url =
      "http://localhost:11434/" :=
  C8_openai_compatible_shim.2.1 "" 0 "localhost:11434" 0 (by decide)

/-- With a payload present, `create_url_from` can fail but cannot reach
its `unwrap` panic. -/
theorem create_url_from_some_not_panic
    (parseJoin : String → String → Except String String) (state : State)
    (req_page : String) :
    Request.create_url_from parseJoin state (some req_page) ≠
      .error .panic := by
  unfold Request.create_url_from
  cases hv : state.get_variable "HTTP_TARGET" with
  | none => simp
  | some val =>
    dsimp only
    cases hp : parseJoin (if containsStr val "://" then val
        else "http://" ++ val) req_page with
    | ok u => simp [hp]
    | error e => simp [hp]

/-- C9: the http actions' `run` bodies are partial at their public
interface: `http-set-header` panics via `unwrap` when the attributes, the
`name` attribute, or the payload is absent, and `http-request` panics when
the attributes, the `method` attribute, or the payload is absent; with the
example-shaped inputs present (a `name` attribute and payload for
`http-set-header`, a `method` attribute and payload for `http-request`)
the panic branches are unreachable and any failure is a returned error. -/
theorem C9_http_run_panics :
    (∀ (state : State) (payload : Option String),
        (SetHeader.run state none payload).1 = .error .panic)
  ∧ (∀ (state : State) (attrs : List (String × String))
        (payload : Option String),
        lookupAttr attrs "name" = none →
        (SetHeader.run state (some attrs) payload).1 = .error .panic)
  ∧ (∀ (state : State) (attrs : List (String × String)) (key : String),
        lookupAttr attrs "name" = some key →
        (SetHeader.run state (some attrs) none).1 = .error .panic)
  ∧ (∀ (methodParse : String → Except String String)
        (parseJoin : String → String → Except String String)
        (state : State) (payload : Option String),
        Request.run_until_send methodParse parseJoin state none payload =
          .panicked)
  ∧ (∀ (methodParse : String → Except String String)
        (parseJoin : String → String → Except String String)
        (state : State) (attrs : List (String × String))
        (payload : Option String),
        lookupAttr attrs "method" = none →
        Request.run_until_send methodParse parseJoin state (some attrs)
          payload = .panicked)
  ∧ (∀ (methodParse : String → Except String String)
        (parseJoin : String → String → Except String String)
        (state : State) (attrs : List (String × String)) (m mm : String),
        lookupAttr attrs "method" = some m → methodParse m = .ok mm →
        Request.run_until_send methodParse parseJoin state (some attrs)
          none = .panicked)
  ∧ (∀ (state : State) (attrs : List (String × String)) (key data : String),
        lookupAttr attrs "name" = some key →
        (SetHeader.run state (some attrs) (some data)).1 ≠ .error .panic)
  ∧ (∀ (methodParse : String → Except String String)
        (parseJoin : String → String → Except String String)
        (state : State) (attrs : List (String × String))
        (m payload : String),
        lookupAttr attrs "method" = some m →
        Request.run_until_send methodParse parseJoin state (some attrs)
          (some payload) ≠ .panicked) := by
  refine ⟨?_, ?_, ?_, ?_, ?_, ?_, ?_, ?_⟩
  · intro state payload
    rfl
  · intro state attrs payload h
    simp [SetHeader.run, h]
  · intro state attrs key h
    simp [SetHeader.run, h]
  · intro methodParse parseJoin state payload
    rfl
  · intro methodParse parseJoin state attrs payload h
    simp [Request.run_until_send, h]
  · intro methodParse parseJoin state attrs m mm h hm
    simp [Request.run_until_send, h, hm, Request.create_url_from]
  · intro state attrs key data h
    simp only [SetHeader.run, h]
    cases hl : lookupStorage state.storages "http-headers" <;> simp
  · intro methodParse parseJoin state attrs m payload h
    simp only [Request.run_until_send, h]
    cases hm : methodParse m with
    | error e => simp
    | ok method =>
      cases hc : Request.create_url_from parseJoin state (some payload) with
      | error err =>
        cases err with
        | panic =>
          exact absurd hc (create_url_from_some_not_panic parseJoin state
            payload)
        | msg e => simp
      | ok parsed =>
        cases hl : lookupStorage state.storages "http-headers" <;> simp

/-- C9 witness: `http-request` with a `method` attribute but no payload
reaches the payload `unwrap` and panics. -/
theorem C9_witness :
    Request.run_until_send demoMethodParse demoParseJoin demoState
      (some [("method", "GET")]) none = .panicked :=
  C9_http_run_panics.2.2.2.2.2.1 demoMethodParse demoParseJoin demoState
    [("method", "GET")] "GET" "GET" (by rfl) (by rfl)

end Nerve
